/-
Shallow embedding, in Lean 4, of the climate-control core of the
msgpo/thermostat repository (file `hvac.py`, version 0.2.0).

Modelling conventions:
- Python dictionaries become either Lean structures with `Option` fields
  (when the set of keys is fixed by the code, e.g. the WINTER/SUMMER
  schedule table) or association lists in insertion order (when keys are
  open-ended, e.g. sensor groups).  `dict.pop` becomes a functional update
  that sets the field to `none`; since `pop` mutates the shared dictionary
  object in Python, the updated table is written back into the thermostat
  state at the same point of the control flow.
- Exceptions become an explicit `PyErr` result: an operation returns the
  post state together with `Option PyErr` (or `Except PyErr` for pure
  queries).  Mutations performed before a raise persist in the post state,
  as they do in Python.
- Hardware effects (`set_pin_mode`, `digital_write`, `sleep`) become an
  event trace of `BoardEvent` values returned alongside the new state.
- `datetime.datetime.now()` is an external input and is passed explicitly
  as a `DateTime` value (only the fields the code reads: month, hour,
  minute).
- Three source lines are syntactically ill-formed Python and are read with
  the only plausible repair, noted at the definition that embeds them:
  line 202 `if area.upper() = sensor.name:` is read as the comparison `==`;
  lines 285/326/365 `for pin is self.controlPins:` are read as `for pin in`;
  lines 297-299 (inconsistent indentation) are read as a second `if` in the
  same block as the first.  Semantically meaningful but buggy lines (the
  attribute name `getbetweenTime` at line 129, the uncalled `self.turnOff`
  at line 299, the two-argument `str.join` at lines 218/223) are embedded
  exactly as written.
-/
import Mathlib

set_option linter.unusedVariables false

deriving instance DecidableEq for Except

/-- The Python exceptions that the embedded code can raise. -/
inductive PyErr where
  | keyError
  | attributeError
  | typeError
  | zeroDivisionError
  | indexError
  | valueError
deriving DecidableEq, Repr

/-- The fields of `datetime.datetime.now()` that `hvac.py` reads. -/
structure DateTime where
  month : Nat
  hour : Nat
  minute : Nat
deriving DecidableEq, Repr

/-- One hardware interaction with the PyMata board.  `sleep` records the
hold duration in milliseconds (the source always sleeps 0.1 s = 100 ms). -/
inductive BoardEvent where
  | setPinMode (pin : Nat) (mode : String)
  | digitalWrite (pin : Nat) (level : Nat)
  | sleep (ms : Nat)
deriving DecidableEq, Repr

/-- A temperature sensor object as `hvac.py` uses it: the class itself is
defined outside this file, but the code reads exactly the attributes
`name`, `controlPin`, `tempC` and `tempF`.  Python object equality for
these plain objects is identity; in the embedding a sensor value stands
for an object identity. -/
structure Sensor where
  name : String
  controlPin : Nat
  tempC : ℚ
  tempF : ℚ
deriving DecidableEq, Repr

/-- The MQTT settings dictionary (keys PATH, HOST, PORT, USER, PASSWORD). -/
structure MqttConfig where
  path : String
  host : String
  port : String
  user : String
  password : String
deriving DecidableEq, Repr

/-- One temperature-modifier entry `[startTime, endTime, delta]`
(`mlist[0]`, `mlist[1]`, `mlist[2]` in the source). -/
structure ModEntry where
  start : String
  stop : String
  delta : Int
deriving DecidableEq, Repr

/-- The `OCCUPIED_SETTINGS` dictionary of a season table.  The HOME and
AWAY keys are `Option` because looking either up when absent raises
`KeyError` (caught by the inner handler at lines 117-124). -/
structure OccupiedSettings where
  home : Option (List ModEntry)
  away : Option (List ModEntry)
deriving DecidableEq, Repr

/-- One season dictionary inside `tempSettings`: the key `DEFAULT_TEMP`,
the optional key `OCCUPIED_SETTINGS`, and every remaining key mapped to a
dictionary of modifier entries.  For those remaining groups the code only
ever calls `.values()` (line 126), so each group is modelled directly as
the list of its values in insertion order. -/
structure SeasonTable where
  defaultTemp : Option Int
  occupiedSettings : Option OccupiedSettings
  otherGroups : List (String × List ModEntry)
deriving DecidableEq, Repr

/-- The `tempSettings` dictionary.  The code only ever subscripts the keys
WINTER and SUMMER (lines 109 and 111). -/
structure ScheduleTable where
  winter : Option SeasonTable
  summer : Option SeasonTable
deriving DecidableEq, Repr

/-- Subscripting `tempSettings[key]` for the two keys the source uses. -/
def ScheduleTable.get (ts : ScheduleTable) (k : String) : Option SeasonTable :=
  if k = "WINTER" then ts.winter
  else if k = "SUMMER" then ts.summer
  else none

/-- Writing back the (mutated-in-place) season dictionary. -/
def ScheduleTable.set (ts : ScheduleTable) (k : String) (v : SeasonTable) : ScheduleTable :=
  if k = "WINTER" then { ts with winter := some v }
  else if k = "SUMMER" then { ts with summer := some v }
  else ts

/-- The state of a `Thermostat` object (class at lines 40-256). -/
structure Thermostat where
  _mode : String
  _desiredTemp : Option Int
  _occupied : Option Bool
  tempSensors : List Sensor
  groups : List (String × List Sensor)
  mqtt : Option MqttConfig
  tempSettings : Option ScheduleTable
deriving DecidableEq, Repr

/-- `Thermostat.__init__` (lines 49-82): mode starts AUTO, no sensors, no
groups, desired temperature and occupancy unset. -/
def Thermostat.init (mqttCfg : Option MqttConfig) (tempSettings : Option ScheduleTable) :
    Thermostat :=
  { _mode := "AUTO"
  , _desiredTemp := none
  , _occupied := none
  , tempSensors := []
  , groups := []
  , mqtt := mqttCfg
  , tempSettings := tempSettings }

/-- The `modes` attribute set in `__init__` (line 75) and never changed. -/
def Thermostat.modes : List String := ["AUTO", "MANUAL"]

/-- The `mode` property setter (lines 88-94): the assignment happens only
when the new mode is in `modes` and differs from the current one;
otherwise a warning is logged and the mode is unchanged. -/
def Thermostat.setMode (cur m : String) : String :=
  if m ∈ Thermostat.modes ∧ m ≠ cur then m else cur

/-- Python truthiness of the `temp` argument of the `desiredTemp` setter
(line 102 `if temp:`): `None` and `0` are falsy. -/
def truthyTemp : Option Int → Bool
  | none => false
  | some t => t ≠ 0

/-- Python truthiness of `self.occupied` (line 119 `if self.occupied:`):
the `_occupied` attribute is `None`, `True` or `False`. -/
def truthyOccupied : Option Bool → Bool
  | some true => true
  | _ => false

/-- Lookup in an insertion-ordered association list modelling a Python
dictionary (`k in d` / `d[k]`). -/
def alistLookup {α : Type} (l : List (String × α)) (k : String) : Option α :=
  match l with
  | [] => none
  | (k', v) :: rest => if k' = k then some v else alistLookup rest k

/-- In-place update of one key of an association list (`d[k].append(x)`
style mutation, with the new value supplied whole). -/
def alistUpdate {α : Type} (l : List (String × α)) (k : String) (v : α) :
    List (String × α) :=
  l.map (fun p => if p.1 = k then (k, v) else p)

/-- `str.upper()` for the ASCII names this code works with: upper-case
every character (defined over the character list so that it evaluates). -/
def pyUpper (s : String) : String := ⟨s.data.map Char.toUpper⟩

/-- `int(s)` restricted to the unsigned decimal numerals that the schedule
time strings use (the docstring at lines 238-242 specifies 1-4 digit
24-hour strings): any other string raises `ValueError` as `int` does. -/
def pyInt (s : String) : Except PyErr Int :=
  if s.data ≠ [] ∧ s.data.all Char.isDigit then
    .ok (s.data.foldl (fun a c => a * 10 + ((c.toNat : Int) - 48)) 0)
  else
    .error .valueError

/-- Season selection by calendar month, lines 108-114 of the `desiredTemp`
setter: `month >= 11 or month <= 3` selects WINTER, else
`month >= 7 or month <= 9` selects SUMMER, else no season.  (The second
test is an inclusive OR over a disjoint range, so it is true for every
month and the final branch is unreachable.) -/
def seasonOf (month : Nat) : Option String :=
  if month ≥ 11 ∨ month ≤ 3 then some "WINTER"
  else if month ≥ 7 ∨ month ≤ 9 then some "SUMMER"
  else none

/-- The `occupied` property setter (lines 152-157): stores the truthiness
of its argument, which is passed here already as that boolean. -/
def Thermostat.setOccupied (s : Thermostat) (present : Bool) : Thermostat :=
  { s with _occupied := some present }

/-- `addSensor` (lines 159-163): when the sensor is not yet in
`tempSensors`, configure its pin as an analog input and append it;
otherwise do nothing. -/
def Thermostat.addSensor (s : Thermostat) (x : Sensor) :
    Thermostat × List BoardEvent :=
  if x ∈ s.tempSensors then (s, [])
  else ({ s with tempSensors := s.tempSensors ++ [x] },
        [.setPinMode x.controlPin "ANALOG"])

/-- `createSensorGroup` (lines 165-169): upper-cases the name and creates
an empty group when absent. -/
def Thermostat.createSensorGroup (s : Thermostat) (groupName : String) : Thermostat :=
  let gU := pyUpper groupName
  match alistLookup s.groups gU with
  | some _ => s
  | none => { s with groups := s.groups ++ [(gU, [])] }

/-- `addSensorToGroup` (lines 171-182): the group name is NOT
upper-cased here; a missing group, an unregistered sensor or an existing
membership each only log a warning. -/
def Thermostat.addSensorToGroup (s : Thermostat) (x : Sensor) (group : String) :
    Thermostat :=
  match alistLookup s.groups group with
  | none => s
  | some members =>
    if x ∈ s.tempSensors then
      if x ∈ members then s
      else { s with groups := alistUpdate s.groups group (members ++ [x]) }
    else s

/-- `updateSensors` (lines 184-187): reads the analog value of every
registered sensor into its `tempC` attribute; the board readings are the
external input `read`. -/
def Thermostat.updateSensors (s : Thermostat) (read : Nat → ℚ) : Thermostat :=
  { s with tempSensors :=
      s.tempSensors.map (fun x => { x with tempC := read x.controlPin }) }

/-- The sensor-matching loop of `getTemp` (lines 201-208): returns the
first registered sensor whose stored `name` equals the upper-cased query
(line 202, read as the comparison `==`). -/
def findSensor (name : String) : List Sensor → Option Sensor
  | [] => none
  | x :: rest => if x.name = name then some x else findSensor name rest

/-- `getTemp` (lines 189-211).  A group match averages the member values
(`temp / len(...)` raises `ZeroDivisionError` for an empty group);
otherwise the first sensor whose stored name equals `area.upper()` is
used; otherwise a warning is logged and `None` is returned.  The unit is
Fahrenheit exactly when `tempFormat == "F"`. -/
def Thermostat.getTemp (s : Thermostat) (area : String) (tempFormat : String) :
    Except PyErr (Option ℚ) :=
  match alistLookup s.groups (pyUpper area) with
  | some members =>
    let temp : ℚ := members.foldl
      (fun acc x => acc + (if tempFormat = "F" then x.tempF else x.tempC)) 0
    if members.length = 0 then .error .zeroDivisionError
    else .ok (some (temp / (members.length : ℚ)))
  | none =>
    match findSensor (pyUpper area) s.tempSensors with
    | some x => .ok (some (if tempFormat = "F" then x.tempF else x.tempC))
    | none => .ok none

/-- `publish` (lines 213-226).  With MQTT enabled and configured, the
first loop iteration evaluates `self.getTemp(sensor.name)` (default unit
F) and then `"/".join(self.mqtt["PATH"], sensor.name.lower())`: `str.join`
takes a single iterable argument, so the two-argument call raises
`TypeError`.  The group loop (lines 221-224) does the same.  Without MQTT
only a warning is logged. -/
def Thermostat.publish (s : Thermostat) (mqttEnabled : Bool) : Except PyErr Unit :=
  if mqttEnabled ∧ s.mqtt.isSome then
    match s.tempSensors with
    | x :: _ =>
      (match s.getTemp x.name "F" with
       | .error e => .error e
       | .ok _ => .error .typeError)
    | [] =>
      match s.groups with
      | (g, _) :: _ =>
        (match s.getTemp g "F" with
         | .error e => .error e
         | .ok _ => .error .typeError)
      | [] => .ok ()
  else .ok ()

/-- `getBetweenTime` (lines 237-256).  `int(timeList[0]) == 0 or
int(timeList[1]) == 0` short-circuits, so the second element is neither
indexed nor parsed when the first is zero.  Otherwise the four slice
parses happen in source order and the minute-field comparison of lines
253-255 decides the result. -/
def Thermostat.getBetweenTime (now : DateTime) (timeList : List String) :
    Except PyErr Bool :=
  match timeList.get? 0 with
  | none => .error .indexError
  | some s0 =>
    match pyInt s0 with
    | .error e => .error e
    | .ok a =>
      if a = 0 then .ok true else
      match timeList.get? 1 with
      | none => .error .indexError
      | some s1 =>
        match pyInt s1 with
        | .error e => .error e
        | .ok b =>
          if b = 0 then .ok true else
          match pyInt (s0.take 2) with
          | .error e => .error e
          | .ok startHour =>
          match pyInt (s0.drop 2) with
          | .error e => .error e
          | .ok startMinute =>
          match pyInt (s1.take 2) with
          | .error e => .error e
          | .ok endHour =>
          match pyInt (s1.drop 2) with
          | .error e => .error e
          | .ok endMinute =>
            if (now.hour : Int) ≥ startHour ∧ (now.minute : Int) ≥ startMinute then
              if (now.hour : Int) ≤ endHour ∧ (now.minute : Int) < endMinute then
                .ok true
              else .ok false
            else .ok false

/-- The `desiredTemp` property setter (lines 100-135).  A truthy argument
switches the mode to MANUAL (through the mode setter) and pins the value.
Otherwise the AUTO recomputation runs: subscripting a `None` settings
object raises `TypeError` (uncaught: the handler at line 133 catches only
`KeyError`); a missing season table or missing `DEFAULT_TEMP` raises
`KeyError`, caught at line 133, which logs and assigns the (falsy)
argument.  The two `pop` calls (lines 115 and 118) mutate the season
dictionary shared with `self.tempSettings`, so the popped table is written
back into the state.  When the collected modifier list is non-empty, line
129 evaluates `self.getbetweenTime`, an attribute that does not exist (the
method at line 237 is named `getBetweenTime`), raising `AttributeError`,
which the `except KeyError` handler does not catch; the pops persist and
`_desiredTemp` is left unchanged. -/
def Thermostat.setDesiredTemp (s : Thermostat) (now : DateTime) (temp : Option Int) :
    Thermostat × Option PyErr :=
  if truthyTemp temp then
    ({ s with _mode := Thermostat.setMode s._mode "MANUAL", _desiredTemp := temp }, none)
  else
    match s.tempSettings with
    | none => (s, some .typeError)
    | some ts =>
      match seasonOf now.month with
      | none => ({ s with _desiredTemp := none }, none)
      | some sk =>
        match ts.get sk with
        | none => ({ s with _desiredTemp := temp }, none)
        | some td =>
          match td.defaultTemp with
          | none => ({ s with _desiredTemp := temp }, none)
          | some startTemp =>
            let td1 : SeasonTable := { td with defaultTemp := none }
            let popped :=
              match td1.occupiedSettings with
              | none => (td1, ([] : List ModEntry))
              | some occ =>
                ({ td1 with occupiedSettings := none },
                 (if truthyOccupied s._occupied then occ.home else occ.away).getD [])
            let td2 := popped.1
            let modList := td2.otherGroups.foldl (fun acc p => acc ++ p.2) popped.2
            let s' := { s with tempSettings := some (ts.set sk td2) }
            match modList with
            | [] => ({ s' with _desiredTemp := some startTemp }, none)
            | _ :: _ => (s', some .attributeError)

/-- The modifier-summation loop of lines 127-130, as it behaves when the
window predicate is the method `getBetweenTime` that the class defines:
entries whose window contains `now` contribute their delta; a parse
failure inside the predicate propagates. -/
def sumApplying (now : DateTime) : List ModEntry → Except PyErr Int
  | [] => .ok 0
  | e :: rest =>
    match Thermostat.getBetweenTime now [e.start, e.stop] with
    | .error err => .error err
    | .ok true =>
      (match sumApplying now rest with
       | .error err => .error err
       | .ok m => .ok (e.delta + m))
    | .ok false => sumApplying now rest

/-- Modelled from the spec (section 4.2 and the test property
`computeTarget == 63`): the `desiredTemp` setter as it would behave if the
call at line 129 resolved to the method `getBetweenTime` defined at line
237 instead of the missing attribute `getbetweenTime`.  Identical to
`Thermostat.setDesiredTemp` in every other respect. -/
def Thermostat.setDesiredTempIntended (s : Thermostat) (now : DateTime)
    (temp : Option Int) : Thermostat × Option PyErr :=
  if truthyTemp temp then
    ({ s with _mode := Thermostat.setMode s._mode "MANUAL", _desiredTemp := temp }, none)
  else
    match s.tempSettings with
    | none => (s, some .typeError)
    | some ts =>
      match seasonOf now.month with
      | none => ({ s with _desiredTemp := none }, none)
      | some sk =>
        match ts.get sk with
        | none => ({ s with _desiredTemp := temp }, none)
        | some td =>
          match td.defaultTemp with
          | none => ({ s with _desiredTemp := temp }, none)
          | some startTemp =>
            let td1 : SeasonTable := { td with defaultTemp := none }
            let popped :=
              match td1.occupiedSettings with
              | none => (td1, ([] : List ModEntry))
              | some occ =>
                ({ td1 with occupiedSettings := none },
                 (if truthyOccupied s._occupied then occ.home else occ.away).getD [])
            let td2 := popped.1
            let modList := td2.otherGroups.foldl (fun acc p => acc ++ p.2) popped.2
            let s' := { s with tempSettings := some (ts.set sk td2) }
            match sumApplying now modList with
            | .error err => (s', some err)
            | .ok modTemp => ({ s' with _desiredTemp := some (startTemp + modTemp) }, none)

/-- The `Heater` actuator (lines 272-311).  `controlPins` is documented as
the list `[off, on]` (lines 277-278): index 0 is the off pin, index 1 the
on pin. -/
structure Heater where
  offPin : Nat
  onPin : Nat
  _state : String
deriving DecidableEq, Repr

/-- `Heater.turnOn` (lines 301-305): a pulse on `controlPins[0]`, the pin
the constructor docstring labels `off`. -/
def Heater.turnOn (h : Heater) : List BoardEvent :=
  [.digitalWrite h.offPin 1, .sleep 100, .digitalWrite h.offPin 0, .sleep 100]

/-- `Heater.turnOff` (lines 307-311): a pulse on `controlPins[1]`, the pin
the constructor docstring labels `on`. -/
def Heater.turnOff (h : Heater) : List BoardEvent :=
  [.digitalWrite h.onPin 1, .sleep 100, .digitalWrite h.onPin 0, .sleep 100]

/-- The `Heater.state` setter (lines 292-299; lines 297-299 are read as a
second `if` in the same block).  The ON branch stores the raw command and
calls `turnOn()`.  The OFF branch stores the raw command and then
evaluates the bare expression `self.turnOff` (line 299) without calling
it, so no board event is emitted.  Any other command changes nothing. -/
def Heater.setState (h : Heater) (onOff : String) : Heater × List BoardEvent :=
  if pyUpper onOff = "ON" then ({ h with _state := onOff }, h.turnOn)
  else if pyUpper onOff = "OFF" then ({ h with _state := onOff }, [])
  else (h, [])

/-- The `AirConditioner` actuator (lines 313-352), byte-identical in logic
to `Heater`. -/
structure AirConditioner where
  offPin : Nat
  onPin : Nat
  _state : String
deriving DecidableEq, Repr

/-- `AirConditioner.turnOn` (lines 342-346): a pulse on `controlPins[0]`. -/
def AirConditioner.turnOn (h : AirConditioner) : List BoardEvent :=
  [.digitalWrite h.offPin 1, .sleep 100, .digitalWrite h.offPin 0, .sleep 100]

/-- `AirConditioner.turnOff` (lines 348-352): a pulse on `controlPins[1]`. -/
def AirConditioner.turnOff (h : AirConditioner) : List BoardEvent :=
  [.digitalWrite h.onPin 1, .sleep 100, .digitalWrite h.onPin 0, .sleep 100]

/-- The `AirConditioner.state` setter (lines 333-340), identical to the
`Heater` one: the OFF branch references `self.turnOff` without calling it. -/
def AirConditioner.setState (h : AirConditioner) (onOff : String) :
    AirConditioner × List BoardEvent :=
  if pyUpper onOff = "ON" then ({ h with _state := onOff }, h.turnOn)
  else if pyUpper onOff = "OFF" then ({ h with _state := onOff }, [])
  else (h, [])

/-- The `Vent` actuator (lines 354-391), byte-identical in logic to
`Heater`. -/
structure Vent where
  offPin : Nat
  onPin : Nat
  _state : String
deriving DecidableEq, Repr

/-- `Vent.turnOn` (lines 381-385): a pulse on `controlPins[0]`. -/
def Vent.turnOn (h : Vent) : List BoardEvent :=
  [.digitalWrite h.offPin 1, .sleep 100, .digitalWrite h.offPin 0, .sleep 100]

/-- `Vent.turnOff` (lines 387-391): a pulse on `controlPins[1]`. -/
def Vent.turnOff (h : Vent) : List BoardEvent :=
  [.digitalWrite h.onPin 1, .sleep 100, .digitalWrite h.onPin 0, .sleep 100]

/-- The `Vent.state` setter (lines 372-379), identical to the `Heater`
one: the OFF branch references `self.turnOff` without calling it. -/
def Vent.setState (h : Vent) (onOff : String) : Vent × List BoardEvent :=
  if pyUpper onOff = "ON" then ({ h with _state := onOff }, h.turnOn)
  else if pyUpper onOff = "OFF" then ({ h with _state := onOff }, [])
  else (h, [])

/-! Concrete states used by the claim theorems. -/

/-- Schedule table of the spec scenario for claim C1: WINTER with
DEFAULT_TEMP 68, an always-on AWAY modifier of -3 and one further rule
group with an always-on modifier of -2. -/
def c1Table : ScheduleTable :=
  { winter := some
      { defaultTemp := some 68
      , occupiedSettings := some { home := some [], away := some [⟨"0", "0", -3⟩] }
      , otherGroups := [("MODS", [⟨"0", "0", -2⟩])] }
  , summer := none }

/-- Thermostat in the C1 scenario, with occupancy explicitly false. -/
def c1State : Thermostat :=
  (Thermostat.init none (some c1Table)).setOccupied false

/-- Schedule table with only a SUMMER entry, for the season-selection
claim: a shoulder month should never reach it. -/
def c2Table : ScheduleTable :=
  { winter := none
  , summer := some { defaultTemp := some 70, occupiedSettings := none, otherGroups := [] } }

/-- A heater whose off trigger is pin 2 and whose on trigger is pin 3
(constructor argument `controlPins = [2, 3]`, documented as `[off, on]`). -/
def c3Heater : Heater := { offPin := 2, onPin := 3, _state := "OFF" }

/-- Thermostat with one freshly created (hence empty) sensor group. -/
def c5GroupState : Thermostat :=
  (Thermostat.init none none).createSensorGroup "living"

/-- Thermostat with MQTT configured and one registered sensor. -/
def c5MqttState : Thermostat :=
  ((Thermostat.init (some ⟨"home", "host", "1883", "u", "p"⟩) none).addSensor
    ⟨"BEDROOM", 1, 20, 68⟩).1

/-- Thermostat whose winter schedule carries one always-on modifier, so
that the AUTO recomputation reaches the modifier loop. -/
def c5AutoState : Thermostat :=
  Thermostat.init none (some
    { winter := some
        { defaultTemp := some 70
        , occupiedSettings := none
        , otherGroups := [("RULES", [⟨"0", "0", 1⟩])] }
    , summer := none })

/-- Thermostat with a single registered sensor whose stored name is the
lower-case string `bedroom`, and no groups. -/
def c6State : Thermostat :=
  ((Thermostat.init none none).addSensor ⟨"bedroom", 1, 20, 68⟩).1

/-- Thermostat with a single registered sensor whose stored name is the
upper-case string `BEDROOM`, and no groups. -/
def c6UpperState : Thermostat :=
  ((Thermostat.init none none).addSensor ⟨"BEDROOM", 1, 20, 68⟩).1

/-- Winter schedule table with a DEFAULT_TEMP and an OCCUPIED_SETTINGS
section, for the pop-side-effect claim. -/
def c9Table : ScheduleTable :=
  { winter := some
      { defaultTemp := some 68
      , occupiedSettings := some { home := some [], away := some [] }
      , otherGroups := [] }
  , summer := none }

/-- Thermostat holding `c9Table`. -/
def c9State : Thermostat := Thermostat.init none (some c9Table)

/-- Thermostat whose mode attribute is MANUAL, for the mode-invariant
witness. -/
def c10ManualState : Thermostat :=
  { Thermostat.init none none with _mode := "MANUAL" }

/-! General lemmas about the embedded operations, shared by the claim
theorems below. -/

/-- Assigning MANUAL through the mode setter always yields MANUAL, from
any current mode. -/
theorem setMode_manual (cur : String) : Thermostat.setMode cur "MANUAL" = "MANUAL" := by
  by_cases h : cur = "MANUAL"
  · simp [Thermostat.setMode, h]
  · have h2 : "MANUAL" ≠ cur := Ne.symm h
    simp [Thermostat.setMode, Thermostat.modes, h2]

/-- `addSensor` does not touch the mode or the target. -/
theorem addSensor_frame (s : Thermostat) (x : Sensor) :
    (s.addSensor x).1._mode = s._mode ∧
    (s.addSensor x).1._desiredTemp = s._desiredTemp := by
  by_cases h : x ∈ s.tempSensors <;> simp [Thermostat.addSensor, h]

/-- `createSensorGroup` does not touch the mode or the target. -/
theorem createSensorGroup_frame (s : Thermostat) (g : String) :
    (s.createSensorGroup g)._mode = s._mode ∧
    (s.createSensorGroup g)._desiredTemp = s._desiredTemp := by
  cases h : alistLookup s.groups (pyUpper g) <;>
    simp [Thermostat.createSensorGroup, h]

/-- `addSensorToGroup` does not touch the mode or the target. -/
theorem addSensorToGroup_frame (s : Thermostat) (x : Sensor) (g : String) :
    (s.addSensorToGroup x g)._mode = s._mode ∧
    (s.addSensorToGroup x g)._desiredTemp = s._desiredTemp := by
  unfold Thermostat.addSensorToGroup
  cases alistLookup s.groups g with
  | none => simp
  | some members =>
    by_cases h1 : x ∈ s.tempSensors
    · by_cases h2 : x ∈ members <;> simp [h1, h2]
    · simp [h1]

/-- `updateSensors` does not touch the mode or the target. -/
theorem updateSensors_frame (s : Thermostat) (f : Nat → ℚ) :
    (s.updateSensors f)._mode = s._mode ∧
    (s.updateSensors f)._desiredTemp = s._desiredTemp := by
  simp [Thermostat.updateSensors]

/-- `setOccupied` does not touch the mode or the target. -/
theorem setOccupied_frame (s : Thermostat) (b : Bool) :
    (s.setOccupied b)._mode = s._mode ∧
    (s.setOccupied b)._desiredTemp = s._desiredTemp := by
  simp [Thermostat.setOccupied]

/-- The season selector only ever answers WINTER or SUMMER (the month
test at line 110 is true for every month, so the `else` of line 112 is
dead code). -/
theorem seasonOf_cases (m : Nat) (sk : String) (h : seasonOf m = some sk) :
    sk = "WINTER" ∨ sk = "SUMMER" := by
  unfold seasonOf at h
  split at h
  · exact Or.inl (Option.some.inj h).symm
  · split at h
    · exact Or.inr (Option.some.inj h).symm
    · exact absurd h (by simp)

/-- Reading back the season table just written. -/
theorem get_set_same (ts : ScheduleTable) (sk : String) (v : SeasonTable)
    (h : sk = "WINTER" ∨ sk = "SUMMER") : (ts.set sk v).get sk = some v := by
  rcases h with h | h <;> subst h <;>
    simp [ScheduleTable.get, ScheduleTable.set]

/-- The `desiredTemp` setter only ever leaves the mode alone or routes
the assignment MANUAL through the mode setter. -/
theorem setDesiredTemp_mode (s : Thermostat) (now : DateTime) (t : Option Int) :
    (s.setDesiredTemp now t).1._mode = s._mode ∨
    (s.setDesiredTemp now t).1._mode = Thermostat.setMode s._mode "MANUAL" := by
  by_cases htr : truthyTemp t
  · exact Or.inr (by simp [Thermostat.setDesiredTemp, htr])
  · left
    cases hts : s.tempSettings with
    | none => simp [Thermostat.setDesiredTemp, htr, hts]
    | some ts =>
      cases hsk : seasonOf now.month with
      | none => simp [Thermostat.setDesiredTemp, htr, hts, hsk]
      | some sk =>
        cases hget : ts.get sk with
        | none => simp [Thermostat.setDesiredTemp, htr, hts, hsk, hget]
        | some td =>
          cases hdt : td.defaultTemp with
          | none => simp [Thermostat.setDesiredTemp, htr, hts, hsk, hget, hdt]
          | some d =>
            cases hocc : td.occupiedSettings with
            | none =>
              simp only [Thermostat.setDesiredTemp, htr, hts, hsk, hget, hdt, hocc,
                Bool.false_eq_true, if_false]
              split <;> rfl
            | some occ =>
              by_cases ho : truthyOccupied s._occupied <;>
              · simp only [Thermostat.setDesiredTemp, htr, hts, hsk, hget, hdt, hocc, ho,
                  Bool.false_eq_true, if_false, if_true]
                split <;> rfl

/-- AUTO recomputation against a season table with no DEFAULT_TEMP key:
the `pop` at line 115 raises `KeyError`, the handler at line 133 catches
it and assigns the (falsy) argument, here `None`. -/
theorem setDesiredTemp_no_default (s : Thermostat) (now : DateTime) (ts : ScheduleTable)
    (sk : String) (td : SeasonTable)
    (h1 : s.tempSettings = some ts) (h2 : seasonOf now.month = some sk)
    (h3 : ts.get sk = some td) (h4 : td.defaultTemp = none) :
    s.setDesiredTemp now none = ({ s with _desiredTemp := none }, none) := by
  simp [Thermostat.setDesiredTemp, truthyTemp, h1, h2, h3, h4]

/-- AUTO recomputation with a DEFAULT_TEMP present writes back a season
table from which DEFAULT_TEMP and OCCUPIED_SETTINGS have been popped,
whatever else the run does. -/
theorem setDesiredTemp_pops (s : Thermostat) (now : DateTime) (ts : ScheduleTable)
    (sk : String) (td : SeasonTable) (d : Int)
    (h1 : s.tempSettings = some ts) (h2 : seasonOf now.month = some sk)
    (h3 : ts.get sk = some td) (h4 : td.defaultTemp = some d) :
    ∃ td2 : SeasonTable,
      (s.setDesiredTemp now none).1.tempSettings = some (ts.set sk td2) ∧
      td2.defaultTemp = none ∧ td2.occupiedSettings = none ∧
      td2.otherGroups = td.otherGroups := by
  cases hocc : td.occupiedSettings with
  | none =>
    refine ⟨{ td with defaultTemp := none }, ?_, rfl, hocc, rfl⟩
    simp only [Thermostat.setDesiredTemp, truthyTemp, h1, h2, h3, h4, hocc,
      Bool.false_eq_true, if_false]
    split <;> rfl
  | some occ =>
    refine ⟨{ td with defaultTemp := none, occupiedSettings := none }, ?_, rfl, rfl, rfl⟩
    by_cases ho : truthyOccupied s._occupied <;>
    · simp only [Thermostat.setDesiredTemp, truthyTemp, h1, h2, h3, h4, hocc, ho,
        Bool.false_eq_true, if_false, if_true]
      split <;> rfl

/-! Claim theorems. -/

/-- C1: in the spec scenario (season winter, DEFAULT_TEMP 68, one
always-on modifier of -2, occupied false with an always-on AWAY modifier
of -3) the claim expects the AUTO recomputation to set the target to
68 - 2 - 3 = 63.  The code instead raises `AttributeError` and leaves the
target unset, because line 129 evaluates `self.getbetweenTime` while the
method defined at line 237 is named `getBetweenTime`; with that call
resolved to the defined method, the result is exactly 63. -/
theorem c1_auto_target_raises_attribute_error :
    ((c1State.setDesiredTemp ⟨12, 9, 0⟩ none).2 = some PyErr.attributeError ∧
     (c1State.setDesiredTemp ⟨12, 9, 0⟩ none).1._desiredTemp = none) ∧
    ((c1State.setDesiredTempIntended ⟨12, 9, 0⟩ none).1._desiredTemp = some 63 ∧
     (c1State.setDesiredTempIntended ⟨12, 9, 0⟩ none).2 = none) := by
  decide

/-- C2: the claim expects the shoulder months 4, 5, 6 and 10 to select no
season and leave the target unset.  In the code the summer test
`month >= 7 or month <= 9` (line 110) is true for every month, so each
shoulder month selects SUMMER, and with a SUMMER table present the AUTO
recomputation sets a target (here 70) instead of leaving it unset.  The
winter months and the genuine summer months behave as the claim states. -/
theorem c2_shoulder_months_select_summer :
    (seasonOf 4 = some "SUMMER" ∧ seasonOf 5 = some "SUMMER" ∧
     seasonOf 6 = some "SUMMER" ∧ seasonOf 10 = some "SUMMER") ∧
    (seasonOf 11 = some "WINTER" ∧ seasonOf 12 = some "WINTER" ∧
     seasonOf 1 = some "WINTER" ∧ seasonOf 2 = some "WINTER" ∧
     seasonOf 3 = some "WINTER") ∧
    (seasonOf 7 = some "SUMMER" ∧ seasonOf 8 = some "SUMMER" ∧
     seasonOf 9 = some "SUMMER") ∧
    ((Thermostat.init none (some c2Table)).setDesiredTemp ⟨4, 12, 0⟩ none).1._desiredTemp
      = some 70 ∧
    ((Thermostat.init none (some c2Table)).setDesiredTemp ⟨4, 12, 0⟩ none).2 = none := by
  decide

/-- C3: the claim expects `setState(OFF)` to record state OFF and emit one
pulse on the off channel, and `setState(ON)` to pulse the on channel.  In
the code the OFF branch records the state but emits nothing (line 299
references `self.turnOff` without calling it), and the ON branch pulses
`controlPins[0]` (pin 2 here), the pin the constructor docstring labels
`off`.  Two consecutive ON commands do leave state ON and emit one pulse
per call.  AirConditioner and Vent behave identically. -/
theorem c3_setState_off_pulseless :
    (c3Heater.setState "OFF" = ({ c3Heater with _state := "OFF" }, [])) ∧
    ((c3Heater.setState "ON").1._state = "ON" ∧
     (c3Heater.setState "ON").2 =
       [.digitalWrite 2 1, .sleep 100, .digitalWrite 2 0, .sleep 100]) ∧
    (((c3Heater.setState "ON").1.setState "ON").1._state = "ON" ∧
     ((c3Heater.setState "ON").1.setState "ON").2 =
       [.digitalWrite 2 1, .sleep 100, .digitalWrite 2 0, .sleep 100]) ∧
    ((AirConditioner.setState ⟨2, 3, "OFF"⟩ "OFF").2 = []) ∧
    ((Vent.setState ⟨2, 3, "OFF"⟩ "OFF").2 = []) := by
  decide

/-- C5: the claim expects every failure to be handled where it occurs.
Three reachable operations instead raise to their caller: `getTemp` on a
freshly created (empty) group divides by `len([])` (line 197,
`ZeroDivisionError`); `publish` with MQTT configured calls
`"/".join(path, name)` with two arguments (line 218, `TypeError`); and
the AUTO recomputation with any applying modifier list evaluates the
missing attribute `self.getbetweenTime` (line 129, `AttributeError`),
which the `except KeyError` handler at line 133 does not catch. -/
theorem c5_core_raises_uncaught_exceptions :
    (c5GroupState.getTemp "living" "F" = .error PyErr.zeroDivisionError) ∧
    (c5MqttState.publish true = .error PyErr.typeError) ∧
    ((c5AutoState.setDesiredTemp ⟨1, 0, 0⟩ none).2 = some PyErr.attributeError) := by
  decide

/-- C6 counterexample: a registered sensor stored under the lower-case
name `bedroom`, queried with the very same string (which certainly equals
the name up to letter case) and matching no group, is not found:
`getTemp` returns `None` because line 202 compares `area.upper()` with
the un-normalised stored name. -/
theorem c6_counterexample_lowercase_sensor_unreachable :
    c6State.tempSensors = [⟨"bedroom", 1, 20, 68⟩] ∧
    c6State.groups = [] ∧
    c6State.getTemp "bedroom" "F" = .ok none := by
  decide

/-- The sensor scan of `getTemp` returns the first sensor whose stored
name equals the upper-cased query. -/
theorem findSensor_first (n : String) (pre post : List Sensor) (x : Sensor)
    (hpre : ∀ y ∈ pre, y.name ≠ n) (hx : x.name = n) :
    findSensor n (pre ++ x :: post) = some x := by
  induction pre with
  | nil => simp [findSensor, hx]
  | cons y ys ih =>
    have hy : y.name ≠ n := hpre y (by simp)
    simp only [List.cons_append, findSensor, hy, if_false]
    exact ih (fun z hz => hpre z (by simp [hz]))

/-- C6 amended: when the query matches no group and some registered
sensor's stored name equals the UPPER-CASED query exactly, `getTemp`
returns the value of the first such sensor in the requested unit.  The
match is case-insensitive in the query only: sensors whose stored names
contain lower-case letters are unreachable (see the counterexample). -/
theorem c6_getTemp_matches_uppercased_query
    (s : Thermostat) (area fmt : String) (pre post : List Sensor) (x : Sensor)
    (hg : alistLookup s.groups (pyUpper area) = none)
    (hs : s.tempSensors = pre ++ x :: post)
    (hpre : ∀ y ∈ pre, y.name ≠ pyUpper area)
    (hx : x.name = pyUpper area) :
    s.getTemp area fmt = .ok (some (if fmt = "F" then x.tempF else x.tempC)) := by
  simp [Thermostat.getTemp, hg, hs, findSensor_first _ _ _ _ hpre hx]

/-- C6 amended, witnessed: the sensor stored as `BEDROOM` is found by the
lower-case query `bedroom` and its Fahrenheit value is returned. -/
theorem c6_witness : c6UpperState.getTemp "bedroom" "F" = .ok (some 68) := by
  have h := c6_getTemp_matches_uppercased_query c6UpperState "bedroom" "F" [] []
    ⟨"BEDROOM", 1, 20, 68⟩ (by decide) (by decide) (by simp) (by decide)
  simpa using h

/-- C7: registering the same sensor (same identity) a second time changes
nothing: the whole state is unchanged, in particular the sensor count,
and no board configuration event is emitted. -/
theorem c7_addSensor_idempotent (s : Thermostat) (x : Sensor) :
    ((s.addSensor x).1.addSensor x).1 = (s.addSensor x).1 ∧
    ((s.addSensor x).1.addSensor x).1.tempSensors.length
      = (s.addSensor x).1.tempSensors.length ∧
    ((s.addSensor x).1.addSensor x).2 = [] := by
  have hmem : x ∈ (s.addSensor x).1.tempSensors := by
    by_cases h : x ∈ s.tempSensors <;> simp [Thermostat.addSensor, h]
  have h2 : ∀ (u : Thermostat), x ∈ u.tempSensors → u.addSensor x = (u, []) := by
    intro u hu
    simp [Thermostat.addSensor, hu]
  have h3 := h2 _ hmem
  exact ⟨by rw [h3], by rw [h3], by rw [h3]⟩

/-- C4: for a two-element time list whose entries parse as integers, the
predicate answers true immediately when either full string parses to 0;
otherwise, with the four slice parses succeeding, it answers exactly the
minute-field comparison `now.hour >= startHour and now.minute >=
startMinute and now.hour <= endHour and now.minute < endMinute`. -/
theorem c4_getBetweenTime_window_rule
    (now : DateTime) (s0 s1 : String) (a b : Int)
    (ha : pyInt s0 = .ok a) (hb : pyInt s1 = .ok b) :
    ((a = 0 ∨ b = 0) → Thermostat.getBetweenTime now [s0, s1] = .ok true) ∧
    (a ≠ 0 → b ≠ 0 →
      ∀ sh sm eh em : Int,
        pyInt (s0.take 2) = .ok sh → pyInt (s0.drop 2) = .ok sm →
        pyInt (s1.take 2) = .ok eh → pyInt (s1.drop 2) = .ok em →
        Thermostat.getBetweenTime now [s0, s1] =
          .ok (decide ((now.hour : Int) ≥ sh ∧ (now.minute : Int) ≥ sm ∧
                       (now.hour : Int) ≤ eh ∧ (now.minute : Int) < em))) := by
  constructor
  · intro h
    rcases h with h0 | h0
    · subst h0
      simp [Thermostat.getBetweenTime, ha]
    · subst h0
      by_cases ha0 : a = 0
      · subst ha0
        simp [Thermostat.getBetweenTime, ha]
      · simp [Thermostat.getBetweenTime, ha, hb, ha0]
  · intro ha0 hb0 sh sm eh em h1 h2 h3 h4
    simp only [Thermostat.getBetweenTime, List.get?, ha, hb, ha0, hb0,
      if_false, h1, h2, h3, h4]
    by_cases hA : (now.hour : Int) ≥ sh ∧ (now.minute : Int) ≥ sm
    · by_cases hB : (now.hour : Int) ≤ eh ∧ (now.minute : Int) < em
      · simp [hA.1, hA.2, hB.1, hB.2]
      · rcases (not_and_or.mp hB) with h | h <;> simp [hA.1, hA.2, h, hB]
    · rcases (not_and_or.mp hA) with h | h <;> simp [h, hA]

/-- C4 witness: the window 0600-0930 contains 07:00 and excludes 05:59
and 09:31. -/
theorem c4_witness :
    Thermostat.getBetweenTime ⟨1, 7, 0⟩ ["0600", "0930"] = .ok true ∧
    Thermostat.getBetweenTime ⟨1, 5, 59⟩ ["0600", "0930"] = .ok false ∧
    Thermostat.getBetweenTime ⟨1, 9, 31⟩ ["0600", "0930"] = .ok false := by
  have h1 := (c4_getBetweenTime_window_rule ⟨1, 7, 0⟩ "0600" "0930" 600 930
    (by decide) (by decide)).2 (by decide) (by decide) 6 0 9 30
    (by decide) (by decide) (by decide) (by decide)
  have h2 := (c4_getBetweenTime_window_rule ⟨1, 5, 59⟩ "0600" "0930" 600 930
    (by decide) (by decide)).2 (by decide) (by decide) 6 0 9 30
    (by decide) (by decide) (by decide) (by decide)
  have h3 := (c4_getBetweenTime_window_rule ⟨1, 9, 31⟩ "0600" "0930" 600 930
    (by decide) (by decide)).2 (by decide) (by decide) 6 0 9 30
    (by decide) (by decide) (by decide) (by decide)
  refine ⟨?_, ?_, ?_⟩
  · simpa using h1
  · simpa using h2
  · simpa using h3

/-- C8: setting any truthy (non-empty, non-zero) value switches the mode
to MANUAL, pins the target to that value, raises nothing and leaves the
schedule table untouched, whatever the table holds; and every other
mutating operation of the thermostat leaves the pinned target in place. -/
theorem c8_manual_pins_target (s : Thermostat) (now : DateTime) (t : Int)
    (ht : t ≠ 0) :
    (s.setDesiredTemp now (some t)).2 = none ∧
    (s.setDesiredTemp now (some t)).1._mode = "MANUAL" ∧
    (s.setDesiredTemp now (some t)).1._desiredTemp = some t ∧
    (s.setDesiredTemp now (some t)).1.tempSettings = s.tempSettings ∧
    (∀ x, ((s.setDesiredTemp now (some t)).1.addSensor x).1._desiredTemp = some t) ∧
    (∀ g, ((s.setDesiredTemp now (some t)).1.createSensorGroup g)._desiredTemp = some t) ∧
    (∀ x g, ((s.setDesiredTemp now (some t)).1.addSensorToGroup x g)._desiredTemp = some t) ∧
    (∀ f, ((s.setDesiredTemp now (some t)).1.updateSensors f)._desiredTemp = some t) ∧
    (∀ b, ((s.setDesiredTemp now (some t)).1.setOccupied b)._desiredTemp = some t) := by
  have htr : truthyTemp (some t) = true := by simp [truthyTemp, ht]
  have hmain : s.setDesiredTemp now (some t) =
      ({ s with _mode := Thermostat.setMode s._mode "MANUAL", _desiredTemp := some t },
       none) := by
    simp [Thermostat.setDesiredTemp, htr]
  rw [hmain]
  refine ⟨rfl, setMode_manual s._mode, rfl, rfl, ?_, ?_, ?_, ?_, ?_⟩
  · intro x
    rw [(addSensor_frame _ x).2]
  · intro g
    rw [(createSensorGroup_frame _ g).2]
  · intro x g
    rw [(addSensorToGroup_frame _ x g).2]
  · intro f
    rw [(updateSensors_frame _ f).2]
  · intro b
    rw [(setOccupied_frame _ b).2]

/-- C8 witness: pinning 72 from a fresh thermostat. -/
theorem c8_witness :
    ((Thermostat.init none (some c1Table)).setDesiredTemp ⟨1, 0, 0⟩ (some 72)).1._mode
      = "MANUAL" ∧
    ((Thermostat.init none (some c1Table)).setDesiredTemp ⟨1, 0, 0⟩ (some 72)).1._desiredTemp
      = some 72 := by
  have h := c8_manual_pins_target (Thermostat.init none (some c1Table)) ⟨1, 0, 0⟩ 72
    (by decide)
  exact ⟨h.2.1, h.2.2.1⟩

/-- C9: whenever the AUTO recomputation selects a season whose table has a
DEFAULT_TEMP entry, it pops DEFAULT_TEMP and the OCCUPIED_SETTINGS
section out of that season table (leaving the other rule groups), so a
second recomputation over the same state finds no DEFAULT_TEMP, catches
the resulting KeyError, and sets the target to the empty argument. -/
theorem c9_auto_recompute_pops_schedule
    (s : Thermostat) (now : DateTime) (ts : ScheduleTable) (sk : String)
    (td : SeasonTable) (d : Int)
    (h1 : s.tempSettings = some ts) (h2 : seasonOf now.month = some sk)
    (h3 : ts.get sk = some td) (h4 : td.defaultTemp = some d) :
    (∃ td2 : SeasonTable,
      (s.setDesiredTemp now none).1.tempSettings = some (ts.set sk td2) ∧
      td2.defaultTemp = none ∧ td2.occupiedSettings = none ∧
      td2.otherGroups = td.otherGroups) ∧
    ((s.setDesiredTemp now none).1.setDesiredTemp now none).1._desiredTemp = none ∧
    ((s.setDesiredTemp now none).1.setDesiredTemp now none).2 = none := by
  obtain ⟨td2, hset, hdt2, hocc2, hog2⟩ := setDesiredTemp_pops s now ts sk td d h1 h2 h3 h4
  have hget2 : (ts.set sk td2).get sk = some td2 :=
    get_set_same ts sk td2 (seasonOf_cases now.month sk h2)
  have hsecond := setDesiredTemp_no_default ((s.setDesiredTemp now none).1) now
    (ts.set sk td2) sk td2 hset h2 hget2 hdt2
  refine ⟨⟨td2, hset, hdt2, hocc2, hog2⟩, ?_, ?_⟩
  · rw [hsecond]
  · rw [hsecond]

/-- C9 witness: with a winter table holding DEFAULT_TEMP 68 and an
occupancy section, the first January recomputation strips the table and
the second one leaves the target unset without an error. -/
theorem c9_witness :
    (∃ td2 : SeasonTable,
      (c9State.setDesiredTemp ⟨1, 0, 0⟩ none).1.tempSettings = some (c9Table.set "WINTER" td2) ∧
      td2.defaultTemp = none ∧ td2.occupiedSettings = none ∧
      td2.otherGroups = ([] : List (String × List ModEntry))) ∧
    ((c9State.setDesiredTemp ⟨1, 0, 0⟩ none).1.setDesiredTemp ⟨1, 0, 0⟩ none).1._desiredTemp
      = none ∧
    ((c9State.setDesiredTemp ⟨1, 0, 0⟩ none).1.setDesiredTemp ⟨1, 0, 0⟩ none).2 = none := by
  have h := c9_auto_recompute_pops_schedule c9State ⟨1, 0, 0⟩ c9Table "WINTER"
    { defaultTemp := some 68
    , occupiedSettings := some { home := some [], away := some [] }
    , otherGroups := [] } 68 rfl (by decide) (by decide) rfl
  exact h

/-- C10: the mode starts as AUTO; the mode setter keeps the mode inside
the two-element mode list and ignores invalid or repeated assignments;
and no thermostat operation moves an existing MANUAL mode anywhere else
(the only implicit mode assignment in the code is the MANUAL one at line
103). -/
theorem c10_mode_invariant :
    (∀ cfg ts, (Thermostat.init cfg ts)._mode = "AUTO") ∧
    (∀ cur m, cur ∈ Thermostat.modes → Thermostat.setMode cur m ∈ Thermostat.modes) ∧
    (∀ cur m, (m ∉ Thermostat.modes ∨ m = cur) → Thermostat.setMode cur m = cur) ∧
    (∀ (s : Thermostat) (now : DateTime) (t : Option Int),
      s._mode = "MANUAL" → (s.setDesiredTemp now t).1._mode = "MANUAL") ∧
    (∀ (s : Thermostat) x, (s.addSensor x).1._mode = s._mode) ∧
    (∀ (s : Thermostat) g, (s.createSensorGroup g)._mode = s._mode) ∧
    (∀ (s : Thermostat) x g, (s.addSensorToGroup x g)._mode = s._mode) ∧
    (∀ (s : Thermostat) f, (s.updateSensors f)._mode = s._mode) ∧
    (∀ (s : Thermostat) b, (s.setOccupied b)._mode = s._mode) := by
  refine ⟨fun cfg ts => rfl, ?_, ?_, ?_, ?_, ?_, ?_, ?_, ?_⟩
  · intro cur m hcur
    unfold Thermostat.setMode
    split
    · next h => exact h.1
    · exact hcur
  · intro cur m h
    unfold Thermostat.setMode
    split
    · next hc =>
      rcases h with h | h
      · exact absurd hc.1 h
      · exact absurd h hc.2
    · rfl
  · intro s now t h
    rcases setDesiredTemp_mode s now t with hm | hm
    · rw [hm, h]
    · rw [hm, h, setMode_manual]
  · intro s x
    exact (addSensor_frame s x).1
  · intro s g
    exact (createSensorGroup_frame s g).1
  · intro s x g
    exact (addSensorToGroup_frame s x g).1
  · intro s f
    exact (updateSensors_frame s f).1
  · intro s b
    exact (setOccupied_frame s b).1

/-- C10 witness: a fresh thermostat starts in AUTO; an invalid mode
string is ignored; a MANUAL thermostat stays MANUAL through an AUTO
recomputation request. -/
theorem c10_witness :
    (Thermostat.init none none)._mode = "AUTO" ∧
    Thermostat.setMode "AUTO" "BANANA" = "AUTO" ∧
    Thermostat.setMode "MANUAL" "MANUAL" = "MANUAL" ∧
    (c10ManualState.setDesiredTemp ⟨1, 0, 0⟩ none).1._mode = "MANUAL" := by
  have h := c10_mode_invariant
  refine ⟨h.1 none none, ?_, ?_, h.2.2.2.1 c10ManualState ⟨1, 0, 0⟩ none rfl⟩
  · exact h.2.2.1 "AUTO" "BANANA" (Or.inl (by decide))
  · exact h.2.2.1 "MANUAL" "MANUAL" (Or.inr rfl)
